import Mathlib

/-!
Verification development for the storefront checkout / stock-reconciliation
logic: ID normalization (variantId.ts, sitemap.xml.ts), variant-mapping
resolution, stock ledger operations, checkout stock validation, pricing,
and the product read hook (Products collection config).

JavaScript identifier values are modelled by the inductive `JsId`, covering
exactly the shapes the sources branch on: null, undefined, strings, numbers,
Buffers, ObjectId-like wrappers (with toHexString / hex toString), plain
objects with a nested `id` field, objects whose `buffer` property is a
serialized byte map ({ "0": b0, "1": b1, ... }), and objects whose `buffer`
property is an actual Buffer.
-/

inductive JsId where
  | jsNull
  | undef
  | str (s : String)
  | num (n : Int)
  /-- a Node Buffer holding the given bytes -/
  | buf (bs : List Nat)
  /-- an ObjectId-like wrapper: `toHexString()` and `toString()` both render
      the bytes as lowercase hex -/
  | oid (bs : List Nat)
  /-- a plain object `{ id: inner }`; its `toString()` is "[object Object]" -/
  | objWithId (inner : JsId)
  /-- a plain object `{ buffer: { "0": b0, "1": b1, ... } }` (serialized Buffer);
      its `toString()` is "[object Object]" -/
  | serBuf (bs : List Nat)
  /-- a plain object `{ buffer: <Buffer bytes> }`; its `toString()` is
      "[object Object]" -/
  | wrapBuf (bs : List Nat)
deriving DecidableEq, Repr

/-- JavaScript truthiness of an identifier value: null, undefined, the empty
string and the number 0 are falsy; every object (including an empty Buffer)
is truthy. -/
def jsTruthy : JsId → Bool
  | JsId.jsNull => false
  | JsId.undef => false
  | JsId.str s => !(s == "")
  | JsId.num n => !(n == 0)
  | _ => true

/-- Lowercase hexadecimal digit for a value below 16 (`0`..`9`, `a`..`f`). -/
def hexDigit (n : Nat) : Char :=
  if n < 10 then Char.ofNat (48 + n) else Char.ofNat (87 + n)

/-- `Buffer.prototype.toString("hex")`: each byte rendered as two lowercase
hex digits.  Buffer bytes live below 256; stray larger values are reduced
mod 256 exactly as `Buffer.from` stores them. -/
def hexOfBytes (bs : List Nat) : String :=
  String.mk (bs.flatMap (fun b => [hexDigit ((b % 256) / 16), hexDigit (b % 16)]))

/-- Node renders `String(buffer)` through UTF-8 decoding.  No property below
depends on the rendered characters (every comparison uses this same function
on both sides), so the decoding is modelled byte-to-char. -/
def utf8ishOfBytes (bs : List Nat) : String :=
  String.mk (bs.map (fun b => Char.ofNat (b % 256)))

/-- JavaScript generic string conversion `String(v)` on the modelled shapes.
ObjectId-like wrappers stringify to their hex form; plain objects stringify
to "[object Object]". -/
def jsStringOf : JsId → String
  | JsId.jsNull => "null"
  | JsId.undef => "undefined"
  | JsId.str s => s
  | JsId.num n => toString n
  | JsId.buf bs => utf8ishOfBytes bs
  | JsId.oid bs => hexOfBytes bs
  | JsId.objWithId _ => "[object Object]"
  | JsId.serBuf _ => "[object Object]"
  | JsId.wrapBuf _ => "[object Object]"

/-!
### variantId.ts
-/

/-- `normalizeVariantId` (variantId.ts lines 10-15): null and undefined map
to the empty string; everything else through `String(id)`. -/
def normalizeVariantId : JsId → String
  | JsId.jsNull => ""
  | JsId.undef => ""
  | v => jsStringOf v

/-- `compareVariantIds` (variantId.ts lines 20-25). -/
def compareVariantIds (a b : JsId) : Bool :=
  normalizeVariantId a == normalizeVariantId b

/-- `normalizeProductId` (variantId.ts lines 48-67), step by step:
1. `Buffer.isBuffer(id)` → hex;
2. object with a `toString` returning something other than "[object Object]"
   → that string (this is the ObjectId case; plain objects fall through);
3. object with an `id` property → recurse;
4. fallback `String(id)`. -/
def normalizeProductId : JsId → String
  | JsId.buf bs => hexOfBytes bs
  | JsId.oid bs => hexOfBytes bs
  | JsId.objWithId inner => normalizeProductId inner
  | v => jsStringOf v

/-!
### Data model (Products / Variants / Variant Mappings / Cart)
-/

/-- A JavaScript number as used for prices: a finite rational, NaN, or an
infinity.  (Integer stock quantities are modelled with `Int` directly.) -/
inductive JsNum where
  | num (q : ℚ)
  | nan
  | inf
  | ninf
deriving DecidableEq, Repr

/-- JavaScript truthiness of a number: 0 and NaN are falsy. -/
def JsNum.truthy : JsNum → Bool
  | JsNum.num q => !(q == 0)
  | JsNum.nan => false
  | _ => true

/-- JavaScript `a || b` where `a` may be undefined (`none`). -/
def jsOrNum : Option JsNum → JsNum → JsNum
  | some v, b => if JsNum.truthy v then v else b
  | none, b => b

/-- A populated variant document (the `variant` relation of a mapping). -/
structure VariantRec where
  id : JsId
  name : String
  sku : Option String
  price : Option JsNum
deriving DecidableEq, Repr

/-- A populated product-variant-mapping document.  `variant` is `none` when
the relation is absent or unpopulated (so `mapping.variant?.id` is
undefined). -/
structure MappingRec where
  id : JsId
  variant : Option VariantRec
  quantity : Int
  priceOverride : Option JsNum
  isDefault : Bool
  isActive : Bool
deriving DecidableEq, Repr

/-- An entry of a product's `variantMappings` array: either a bare numeric
reference or a fully populated mapping record. -/
inductive MappingEntry where
  | ref (n : Int)
  | doc (m : MappingRec)
deriving DecidableEq, Repr

/-- A product document as fetched during checkout. -/
structure ProductRec where
  id : JsId
  title : String
  published : Bool
  totalStock : Option Int
  discountedPrice : Option JsNum
  originalPrice : JsNum
  variantMappings : Option (List MappingEntry)
deriving DecidableEq, Repr

/-- The client-submitted variant selection of a cart item
(`item.variant.id`, plus the optional `(item.variant as any).mappingId`). -/
structure CartVariant where
  vid : JsId
  name : String
  mappingId : Option JsId
deriving DecidableEq, Repr

/-- A client-submitted cart item. -/
structure CartItem where
  pid : JsId
  quantity : Int
  variant : Option CartVariant
deriving DecidableEq, Repr

/-!
### normalizeMappingId (sitemap.xml.ts lines 402-535)
-/

/-- The `mapping.id !== undefined` block of `normalizeMappingId` (sitemap
lines 454-515), applied to the extracted `idValue`:
Buffer → hex; nested real Buffer in `.buffer` → hex; nested serialized
Buffer in `.buffer` with at least one byte → hex (an empty serialized
buffer falls through to the ObjectId-like `toString` branch);
`toHexString` → hex; other objects → their `toString()` (which is
"[object Object]" for a plain object with an `id` field); strings and
numbers directly; final fallback `String(idValue)`. -/
def normalizeIdValue : JsId → String
  | JsId.buf bs => hexOfBytes bs
  | JsId.wrapBuf bs => hexOfBytes bs
  | JsId.serBuf bs => if bs.isEmpty then "[object Object]" else hexOfBytes bs
  | JsId.oid bs => hexOfBytes bs
  | JsId.objWithId _ => "[object Object]"
  | JsId.str s => s
  | JsId.num n => toString n
  | JsId.jsNull => "null"
  | JsId.undef => "undefined"

/-- `normalizeMappingId` (sitemap lines 402-535).  Throws on falsy input
(`if (!mapping) throw ...`), then: Buffer → hex; string/number directly;
objects: a real Buffer under `.buffer` → hex; a serialized Buffer under
`.buffer` with at least one byte value → reconstructed and hex-encoded
(an empty one falls through to the `toString` fallback, yielding
"[object Object]"); an `id` property → `normalizeIdValue` (an object whose
`id` is literally undefined skips that block and lands on its own
`toString`, "[object Object]"); `toHexString` → hex; `toString` → its
string. -/
def normalizeMappingId (v : JsId) : Except String String :=
  if !jsTruthy v then
    Except.error ("Cannot normalize undefined or null mapping ID")
  else
    match v with
    | JsId.buf bs => Except.ok (hexOfBytes bs)
    | JsId.str s => Except.ok s
    | JsId.num n => Except.ok (toString n)
    | JsId.wrapBuf bs => Except.ok (hexOfBytes bs)
    | JsId.serBuf bs =>
        Except.ok (if bs.isEmpty then "[object Object]" else hexOfBytes bs)
    | JsId.objWithId JsId.undef => Except.ok ("[object Object]")
    | JsId.objWithId inner => Except.ok (normalizeIdValue inner)
    | JsId.oid bs => Except.ok (hexOfBytes bs)
    | JsId.jsNull => Except.error ("Cannot normalize undefined or null mapping ID")
    | JsId.undef => Except.error ("Cannot normalize undefined or null mapping ID")

/-- `normalizeMappingId` applied to a whole mapping record, as the sitemap
code does (`normalizeMappingId(mapping)` / `normalizeMappingId(variantMapping)`):
the record is a truthy object without a `buffer` property, so the call
resolves through its `id` field (or, when `id` is undefined, through the
record's own `toString`). -/
def normalizeMappingIdOfRec (m : MappingRec) : String :=
  match m.id with
  | JsId.undef => "[object Object]"
  | inner => normalizeIdValue inner

/-!
### findVariantMapping (sitemap.xml.ts lines 538-573)
-/

/-- `mapping.variant?.id`: undefined when the variant relation is absent. -/
def variantIdField (m : MappingRec) : JsId :=
  match m.variant with
  | some vr => vr.id
  | none => JsId.undef

/-- The per-variant-id normalization inside the resolver's callback
(sitemap lines 553-560): a Buffer id is hex-encoded, anything else goes
through `normalizeVariantId`. -/
def bufferHexOrNormalize : JsId → String
  | JsId.buf bs => hexOfBytes bs
  | v => normalizeVariantId v

/-- The resolver's match callback (sitemap lines 544-571) evaluated on a
fully populated mapping record (bare numeric entries are rejected before
this point).  The six disjuncts of the source, in order. -/
def matchesCode (reqVar : JsId) (reqMap : Option JsId) (m : MappingRec) : Bool :=
  let normalizedVariantId := normalizeVariantId reqVar
  let normalizedMappingId : Option String :=
    match reqMap with
    | some x => if jsTruthy x then some (normalizeVariantId x) else none
    | none => none
  let normalizedMappingIdValue := normalizeMappingIdOfRec m
  let actualVid := variantIdField m
  let normalizedActualVariantId :=
    if actualVid = JsId.undef then "" else bufferHexOrNormalize actualVid
  (normalizedMappingIdValue == normalizedVariantId)
  || (normalizedActualVariantId == normalizedVariantId)
  || (match normalizedMappingId with
      | some s => (s != "") && (normalizedMappingIdValue == s)
      | none => false)
  || compareVariantIds actualVid reqVar
  || compareVariantIds m.id reqVar
  || (match reqMap with
      | some x => jsTruthy x && compareVariantIds m.id x
      | none => false)

/-- `findVariantMapping` (sitemap lines 538-573): null when the mapping list
is absent; otherwise the first entry passing the callback, with bare numeric
references skipped.  Total by construction: every entry is either a numeric
reference (skipped before normalization) or a truthy record object, so the
throwing path of `normalizeMappingId` is unreachable and no-match yields
`none` (the source returns undefined). -/
def findVariantMapping (mappings : Option (List MappingEntry)) (reqVar : JsId)
    (reqMap : Option JsId) : Option MappingEntry :=
  match mappings with
  | none => none
  | some l =>
      l.find? (fun e =>
        match e with
        | MappingEntry.ref _ => false
        | MappingEntry.doc m => matchesCode reqVar reqMap m)

/-!
Claim-side match predicate for C1, organized as the claim states it:
the mapping's own identifier equals the requested variant identifier, or
its target variant's identifier equals the requested variant identifier,
or (when supplied and truthy) its own identifier equals the requested
mapping identifier — each comparison taken after the normalizations the
code applies at that comparison site.
-/

/-- The mapping's own identifier equals the requested variant identifier
after normalization (robust mapping-id normalization, or the plain
variant-id normalization). -/
def ownIdMatchesVariant (reqVar : JsId) (m : MappingRec) : Bool :=
  (normalizeMappingIdOfRec m == normalizeVariantId reqVar)
  || compareVariantIds m.id reqVar

/-- The mapping's target variant's identifier equals the requested variant
identifier after normalization. -/
def targetVariantMatches (reqVar : JsId) (m : MappingRec) : Bool :=
  let actualVid := variantIdField m
  ((if actualVid = JsId.undef then "" else bufferHexOrNormalize actualVid)
      == normalizeVariantId reqVar)
  || compareVariantIds actualVid reqVar

/-- The mapping's own identifier equals the explicitly supplied requested
mapping identifier (when one is supplied and truthy). -/
def ownIdMatchesMapping (reqMap : Option JsId) (m : MappingRec) : Bool :=
  match reqMap with
  | some x =>
      jsTruthy x &&
        (((normalizeVariantId x != "") &&
            (normalizeMappingIdOfRec m == normalizeVariantId x))
          || compareVariantIds m.id x)
  | none => false

/-- The selection criterion exactly as claim C1 states it. -/
def specMatches (reqVar : JsId) (reqMap : Option JsId) (m : MappingRec) : Bool :=
  ownIdMatchesVariant reqVar m
  || targetVariantMatches reqVar m
  || ownIdMatchesMapping reqMap m

/-- The claim-side criterion coincides with the code's callback: the code's
six disjuncts are exactly the claim's three groups, reordered. -/
theorem specMatches_eq_matchesCode (reqVar : JsId) (reqMap : Option JsId)
    (m : MappingRec) : specMatches reqVar reqMap m = matchesCode reqVar reqMap m := by
  unfold specMatches ownIdMatchesVariant targetVariantMatches ownIdMatchesMapping matchesCode
  cases reqMap with
  | none =>
      simp only []
      generalize (normalizeMappingIdOfRec m == normalizeVariantId reqVar) = a
      generalize ((if variantIdField m = JsId.undef then ""
        else bufferHexOrNormalize (variantIdField m)) == normalizeVariantId reqVar) = b
      generalize compareVariantIds (variantIdField m) reqVar = d
      generalize compareVariantIds m.id reqVar = e
      cases a <;> cases b <;> cases d <;> cases e <;> rfl
  | some x =>
      simp only []
      by_cases hx : jsTruthy x = true
      · simp only [hx, if_pos, Bool.true_and]
        generalize (normalizeMappingIdOfRec m == normalizeVariantId reqVar) = a
        generalize ((if variantIdField m = JsId.undef then ""
          else bufferHexOrNormalize (variantIdField m)) == normalizeVariantId reqVar) = b
        generalize ((normalizeVariantId x != "") &&
          (normalizeMappingIdOfRec m == normalizeVariantId x)) = c
        generalize compareVariantIds (variantIdField m) reqVar = d
        generalize compareVariantIds m.id reqVar = e
        generalize compareVariantIds m.id x = f
        cases a <;> cases b <;> cases c <;> cases d <;> cases e <;> cases f <;> rfl
      · have hx2 : jsTruthy x = false := by
          cases h : jsTruthy x
          · rfl
          · exact absurd h hx
        simp only [hx2, if_neg, Bool.false_and, Bool.or_false]
        generalize (normalizeMappingIdOfRec m == normalizeVariantId reqVar) = a
        generalize ((if variantIdField m = JsId.undef then ""
          else bufferHexOrNormalize (variantIdField m)) == normalizeVariantId reqVar) = b
        generalize compareVariantIds (variantIdField m) reqVar = d
        generalize compareVariantIds m.id reqVar = e
        cases a <;> cases b <;> cases d <;> cases e <;> rfl

/-- C1: For every list of variant mappings and every requested variant
identifier (with an optional requested mapping identifier), the mapping
resolver returns an entry if and only if some entry is a fully populated
mapping record whose own identifier, target variant's identifier, or (when
supplied) own identifier matches, after normalization, the requested
variant identifier resp. requested mapping identifier; bare numeric
references are skipped, never returned and never errors; an empty or
absent list, or no match, yields a not-found value (and the resolver is a
total function, so it never throws on mapping-entry lists). -/
theorem findVariantMapping_resolves_iff (mappings : Option (List MappingEntry))
    (reqVar : JsId) (reqMap : Option JsId) :
    (findVariantMapping mappings reqVar reqMap = none ↔
      ∀ m : MappingRec, MappingEntry.doc m ∈ mappings.getD [] →
        specMatches reqVar reqMap m = false) ∧
    (∀ e : MappingEntry, findVariantMapping mappings reqVar reqMap = some e →
      ∃ m : MappingRec, e = MappingEntry.doc m ∧
        MappingEntry.doc m ∈ mappings.getD [] ∧
        specMatches reqVar reqMap m = true) := by
  cases mappings with
  | none =>
      constructor
      · constructor
        · intro _ m hm
          simp at hm
        · intro _
          rfl
      · intro e he
        simp [findVariantMapping] at he
  | some l =>
      constructor
      · constructor
        · intro hnone m hm
          simp only [findVariantMapping, List.find?_eq_none] at hnone
          have := hnone (MappingEntry.doc m) (by simpa using hm)
          rw [specMatches_eq_matchesCode]
          simpa using this
        · intro hall
          simp only [findVariantMapping, List.find?_eq_none]
          intro e he
          cases e with
          | ref n => simp
          | doc m =>
              have := hall m (by simpa using he)
              rw [specMatches_eq_matchesCode] at this
              simpa using this
      · intro e he
        simp only [findVariantMapping] at he
        have hmem : e ∈ l := List.mem_of_find?_eq_some he
        have hp := List.find?_some he
        cases e with
        | ref n => simp at hp
        | doc m =>
            refine ⟨m, rfl, by simpa using hmem, ?_⟩
            rw [specMatches_eq_matchesCode]
            simpa using hp

/-- Concrete data for the C1 witness: a list holding one bare numeric
reference and one populated record whose target variant id is "v1". -/
def mappingC1 : MappingRec :=
  { id := JsId.str "m1"
    variant := some { id := JsId.str "v1", name := "Red", sku := some "SKU1",
                      price := some (JsNum.num 10) }
    quantity := 5
    priceOverride := none
    isDefault := true
    isActive := true }

theorem findVariantMapping_resolves_iff_witness :
    ∃ m : MappingRec, MappingEntry.doc mappingC1 = MappingEntry.doc m ∧
      MappingEntry.doc m ∈ (some [MappingEntry.ref 7, MappingEntry.doc mappingC1]
          : Option (List MappingEntry)).getD [] ∧
      specMatches (JsId.str "v1") none m = true :=
  (findVariantMapping_resolves_iff
      (some [MappingEntry.ref 7, MappingEntry.doc mappingC1])
      (JsId.str "v1") none).2
    (MappingEntry.doc mappingC1) (by decide)

/-- C9: normalizeVariantId maps both null and undefined to the empty string,
so any two arguments each of which is null, undefined, or the empty string
compare as equal under compareVariantIds. -/
theorem absent_variant_ids_compare_equal :
    normalizeVariantId JsId.jsNull = "" ∧
    normalizeVariantId JsId.undef = "" ∧
    ∀ a b : JsId,
      (a = JsId.jsNull ∨ a = JsId.undef ∨ a = JsId.str "") →
      (b = JsId.jsNull ∨ b = JsId.undef ∨ b = JsId.str "") →
      compareVariantIds a b = true := by
  refine ⟨rfl, rfl, ?_⟩
  intro a b ha hb
  rcases ha with h | h | h <;> rcases hb with h2 | h2 | h2 <;>
    subst h <;> subst h2 <;> rfl

theorem absent_variant_ids_compare_equal_witness :
    compareVariantIds JsId.jsNull (JsId.str "") = true :=
  absent_variant_ids_compare_equal.2.2 JsId.jsNull (JsId.str "")
    (Or.inl rfl) (Or.inr (Or.inr rfl))

/-!
### validateAndGetProducts (sitemap.xml.ts lines 323-398), stock-check part
-/

/-- The product lookup used throughout checkout:
`products.find((p) => normalizeProductId(p.id) === normalizedItemId)`. -/
def findProductFor (products : List ProductRec) (item : CartItem) : Option ProductRec :=
  products.find? (fun p => normalizeProductId p.id == normalizeProductId item.pid)

/-- The per-item stock check of `validateAndGetProducts` (sitemap lines
351-389): `none` when the item passes, `some message` when it contributes a
stock issue.  A variant-scoped item resolves through `findVariantMapping`
over `product.variantMappings || []`; a product-scoped item checks
`product.totalStock || 0`. -/
def itemStockIssue (products : List ProductRec) (item : CartItem) : Option String :=
  match findProductFor products item with
  | none => none
  | some product =>
      match item.variant with
      | some v =>
          match findVariantMapping (some (product.variantMappings.getD []))
              v.vid v.mappingId with
          | some (MappingEntry.doc m) =>
              if m.quantity ≤ 0 || m.quantity < item.quantity then
                some (product.title ++ (" - ") ++ v.name ++ (": requested ")
                  ++ toString item.quantity ++ (", available ")
                  ++ toString m.quantity)
              else none
          | _ =>
              some (product.title ++ (" - ") ++ v.name
                ++ (": variant no longer available"))
      | none =>
          let ts := product.totalStock.getD 0
          if ts ≤ 0 || ts < item.quantity then
            some (product.title ++ (": requested ") ++ toString item.quantity
              ++ (", available ") ++ toString ts)
          else none

/-- The aggregated `stockIssues` array (sitemap lines 350-389). -/
def stockIssues (items : List CartItem) (products : List ProductRec) : List String :=
  items.filterMap (itemStockIssue products)

/-- The stock gate of `validateAndGetProducts` (sitemap lines 391-397):
one combined rejection when any issue was collected. -/
def checkStock (items : List CartItem) (products : List ProductRec) :
    Except String Unit :=
  if (stockIssues items products).isEmpty then Except.ok ()
  else
    Except.error ("Insufficient stock for the following items: "
      ++ String.intercalate (", ") (stockIssues items products))

/-!
### deductStockFromOrder (lines 575-667) and restoreStockFromOrder (669-717)
-/

/-- A `payloadClient.update` call on the product-variant-mappings collection
touching only the `quantity` field, as both ledger operations emit it. -/
structure StockUpdate where
  mappingId : String
  quantity : Int
deriving DecidableEq, Repr

/-- The default-mapping lookup of the deduction loop (sitemap lines 630-632):
`product.variantMappings?.find((mapping) => mapping.isDefault)`.  On a bare
numeric entry `mapping.isDefault` is undefined, hence falsy. -/
def entryIsDefault : MappingEntry → Bool
  | MappingEntry.ref _ => false
  | MappingEntry.doc m => m.isDefault

/-- One iteration of the `deductStockFromOrder` loop (sitemap lines 578-666),
rendered as the quantity-only update calls it issues.  With a variant the
mapping comes from `findVariantMapping(product.variantMappings, ...)`; without
one, from the entry flagged `isDefault` (or no update at all).  The persisted
quantity is `Math.max(0, quantity - item.quantity)`. -/
def deductStockItem (products : List ProductRec) (item : CartItem) : List StockUpdate :=
  match findProductFor products item with
  | none => []
  | some product =>
      match item.variant with
      | some v =>
          match findVariantMapping product.variantMappings v.vid v.mappingId with
          | some (MappingEntry.doc m) =>
              [{ mappingId := normalizeMappingIdOfRec m
                 quantity := max 0 (m.quantity - item.quantity) }]
          | _ => []
      | none =>
          match product.variantMappings with
          | none => []
          | some l =>
              match l.find? entryIsDefault with
              | some (MappingEntry.doc m) =>
                  [{ mappingId := normalizeMappingIdOfRec m
                     quantity := max 0 (m.quantity - item.quantity) }]
              | _ => []

/-- One iteration of the `restoreStockFromOrder` loop (sitemap lines
672-716).  Only the `item.variant` branch exists in the source: an item
without a variant issues no update (there is no default-mapping branch).
The persisted quantity is `quantity + item.quantity`, with no upper clamp. -/
def restoreStockItem (products : List ProductRec) (item : CartItem) : List StockUpdate :=
  match findProductFor products item with
  | none => []
  | some product =>
      match item.variant with
      | some v =>
          match findVariantMapping product.variantMappings v.vid v.mappingId with
          | some (MappingEntry.doc m) =>
              [{ mappingId := normalizeMappingIdOfRec m
                 quantity := m.quantity + item.quantity }]
          | _ => []
      | none => []

/-- `deductStockFromOrder` over a whole cart: the loop body runs once per
item, and no update feeds back into the in-memory `products` snapshot. -/
def deductStockFromOrder (items : List CartItem) (products : List ProductRec) :
    List StockUpdate :=
  items.flatMap (deductStockItem products)

/-- `restoreStockFromOrder` over a whole cart. -/
def restoreStockFromOrder (items : List CartItem) (products : List ProductRec) :
    List StockUpdate :=
  items.flatMap (restoreStockItem products)

/-- C2: For a resolved variant mapping with quantity q and requested
quantity n, deduction persists exactly one quantity-only update carrying
`max 0 (q - n)` — never negative — and restoration persists exactly one
update carrying `q + n`, with no upper clamp. -/
theorem deduct_restore_quantity_formulas (products : List ProductRec)
    (item : CartItem) (v : CartVariant) (m : MappingRec) (product : ProductRec)
    (hp : findProductFor products item = some product)
    (hv : item.variant = some v)
    (hm : findVariantMapping product.variantMappings v.vid v.mappingId
        = some (MappingEntry.doc m)) :
    deductStockItem products item =
      [{ mappingId := normalizeMappingIdOfRec m
         quantity := max 0 (m.quantity - item.quantity) }] ∧
    (∀ u ∈ deductStockItem products item, 0 ≤ u.quantity) ∧
    restoreStockItem products item =
      [{ mappingId := normalizeMappingIdOfRec m
         quantity := m.quantity + item.quantity }] := by
  have hd : deductStockItem products item =
      [{ mappingId := normalizeMappingIdOfRec m
         quantity := max 0 (m.quantity - item.quantity) }] := by
    unfold deductStockItem
    simp only [hp, hv, hm]
  refine ⟨hd, ?_, ?_⟩
  · intro u hu
    rw [hd] at hu
    simp at hu
    rw [hu]
    exact le_max_left 0 _
  · unfold restoreStockItem
    simp only [hp, hv, hm]

/-- Witness data for C2: an active mapping with quantity 3 being deducted by
5 (clamped to 0), and a mapping with quantity 0 being restored by 5. -/
def mappingC2a : MappingRec :=
  { id := JsId.str "mA"
    variant := some { id := JsId.str "vA", name := "A", sku := none, price := none }
    quantity := 3
    priceOverride := none
    isDefault := false
    isActive := true }

def productC2a : ProductRec :=
  { id := JsId.num 1, title := "PA", published := true, totalStock := some 3,
    discountedPrice := none, originalPrice := JsNum.num 10,
    variantMappings := some [MappingEntry.doc mappingC2a] }

def itemC2a : CartItem :=
  { pid := JsId.num 1, quantity := 5,
    variant := some { vid := JsId.str "vA", name := "A", mappingId := none } }

def mappingC2b : MappingRec :=
  { id := JsId.str "mB"
    variant := some { id := JsId.str "vB", name := "B", sku := none, price := none }
    quantity := 0
    priceOverride := none
    isDefault := false
    isActive := true }

def productC2b : ProductRec :=
  { id := JsId.num 2, title := "PB", published := true, totalStock := some 0,
    discountedPrice := none, originalPrice := JsNum.num 10,
    variantMappings := some [MappingEntry.doc mappingC2b] }

def itemC2b : CartItem :=
  { pid := JsId.num 2, quantity := 5,
    variant := some { vid := JsId.str "vB", name := "B", mappingId := none } }

theorem deduct_restore_quantity_formulas_witness :
    deductStockItem [productC2a] itemC2a = [{ mappingId := "mA", quantity := 0 }] ∧
    restoreStockItem [productC2b] itemC2b = [{ mappingId := "mB", quantity := 5 }] := by
  have h1 := deduct_restore_quantity_formulas [productC2a] itemC2a
    { vid := JsId.str "vA", name := "A", mappingId := none } mappingC2a productC2a
    (by decide) rfl (by decide)
  have h2 := deduct_restore_quantity_formulas [productC2b] itemC2b
    { vid := JsId.str "vB", name := "B", mappingId := none } mappingC2b productC2b
    (by decide) rfl (by decide)
  exact ⟨h1.1.trans (by decide), h2.2.2.trans (by decide)⟩

/-- Counterexample for C8: an item without a variant selection, against a
product holding a default mapping with quantity 5.  Deduction adjusts the
default mapping, but restoration issues no update at all: the restore loop
has no default-mapping branch. -/
def mappingC8 : MappingRec :=
  { id := JsId.str "mD"
    variant := some { id := JsId.str "vD", name := "D", sku := none, price := none }
    quantity := 5
    priceOverride := none
    isDefault := true
    isActive := true }

def productC8 : ProductRec :=
  { id := JsId.num 3, title := "PD", published := true, totalStock := some 5,
    discountedPrice := none, originalPrice := JsNum.num 10,
    variantMappings := some [MappingEntry.doc mappingC8] }

def itemC8 : CartItem :=
  { pid := JsId.num 3, quantity := 1, variant := none }

theorem restore_default_asymmetry_counterexample :
    deductStockItem [productC8] itemC8 = [{ mappingId := "mD", quantity := 4 }] ∧
    restoreStockItem [productC8] itemC8 = [] := by decide

/-- C8 (amended): restoration selects the mapping with the same resolution
logic as deduction only for variant-scoped items (both adjust the mapping
returned by the resolver); for an item without a variant, restoration is a
no-op — the default-mapping branch exists only in deduction. -/
theorem restore_selection_amended (products : List ProductRec) (item : CartItem) :
    (item.variant = none → restoreStockItem products item = []) ∧
    (∀ (v : CartVariant) (m : MappingRec) (product : ProductRec),
      findProductFor products item = some product →
      item.variant = some v →
      findVariantMapping product.variantMappings v.vid v.mappingId
          = some (MappingEntry.doc m) →
      restoreStockItem products item =
        [{ mappingId := normalizeMappingIdOfRec m
           quantity := m.quantity + item.quantity }] ∧
      deductStockItem products item =
        [{ mappingId := normalizeMappingIdOfRec m
           quantity := max 0 (m.quantity - item.quantity) }]) := by
  constructor
  · intro hnone
    unfold restoreStockItem
    cases hfp : findProductFor products item with
    | none => rfl
    | some product => rw [hnone]
  · intro v m product hp hv hm
    constructor
    · unfold restoreStockItem
      simp only [hp, hv, hm]
    · unfold deductStockItem
      simp only [hp, hv, hm]

theorem restore_selection_amended_witness :
    restoreStockItem [productC8] itemC8 = [] :=
  (restore_selection_amended [productC8] itemC8).1 rfl

/-- Counterexample data for C4: the product's only mapping is inactive
(`isActive: false`) yet carries sufficient quantity. -/
def mappingC4 : MappingRec :=
  { id := JsId.str "m4"
    variant := some { id := JsId.str "v4", name := "Inact", sku := none, price := none }
    quantity := 5
    priceOverride := none
    isDefault := false
    isActive := false }

def productC4 : ProductRec :=
  { id := JsId.num 4, title := "P4", published := true, totalStock := some 0,
    discountedPrice := none, originalPrice := JsNum.num 10,
    variantMappings := some [MappingEntry.doc mappingC4] }

def itemC4 : CartItem :=
  { pid := JsId.num 4, quantity := 1,
    variant := some { vid := JsId.str "v4", name := "Inact", mappingId := none } }

/-- Counterexample for C4: the stock check accepts a variant-scoped item
whose only resolvable mapping is inactive — `validateAndGetProducts` never
consults `isActive`, so "a resolvable, active mapping exists" is not
required for acceptance. -/
theorem inactive_mapping_accepted_counterexample :
    itemStockIssue [productC4] itemC4 = none ∧
    productC4.variantMappings = some [MappingEntry.doc mappingC4] ∧
    mappingC4.isActive = false := by decide

/-- C4 (amended): a variant-scoped cart item is accepted by the stock check
exactly when the resolver returns a (populated, but not necessarily active)
mapping whose quantity is at least the requested quantity and positive; a
product-scoped item exactly when `product.totalStock || 0` is at least the
requested quantity and positive; and the combined check succeeds exactly
when every item individually passes (each failing item contributes a
shortfall to the one aggregated rejection). -/
theorem stock_validation_amended (products : List ProductRec)
    (items : List CartItem) (item : CartItem) (product : ProductRec)
    (hp : findProductFor products item = some product) :
    (∀ v : CartVariant, item.variant = some v →
      (itemStockIssue products item = none ↔
        ∃ m : MappingRec,
          findVariantMapping (some (product.variantMappings.getD []))
              v.vid v.mappingId = some (MappingEntry.doc m) ∧
          item.quantity ≤ m.quantity ∧ 0 < m.quantity)) ∧
    (item.variant = none →
      (itemStockIssue products item = none ↔
        item.quantity ≤ product.totalStock.getD 0 ∧
          0 < product.totalStock.getD 0)) ∧
    (checkStock items products = Except.ok () ↔
      ∀ it ∈ items, itemStockIssue products it = none) := by
  refine ⟨?_, ?_, ?_⟩
  · intro v hv
    unfold itemStockIssue
    simp only [hp, hv]
    cases hm : findVariantMapping (some (product.variantMappings.getD []))
        v.vid v.mappingId with
    | none =>
        simp only []
        constructor
        · intro h
          exact absurd h (by simp)
        · rintro ⟨m, hme, -, -⟩
          exact absurd hme (by simp)
    | some e =>
        cases e with
        | ref n =>
            simp only []
            constructor
            · intro h
              exact absurd h (by simp)
            · rintro ⟨m, hme, -, -⟩
              exact absurd hme (by simp)
        | doc m0 =>
            simp only []
            by_cases hq : m0.quantity ≤ 0 ∨ m0.quantity < item.quantity
            · have hqb : (m0.quantity ≤ 0 || m0.quantity < item.quantity) = true := by
                rcases hq with h | h <;> simp [h]
              rw [if_pos hqb]
              constructor
              · intro h
                exact absurd h (by simp)
              · rintro ⟨m, hme, hle, hpos⟩
                have : m = m0 := by
                  have := Option.some.inj hme
                  exact (MappingEntry.doc.inj this).symm
                subst this
                omega
            · have hqb : (m0.quantity ≤ 0 || m0.quantity < item.quantity) = false := by
                push_neg at hq
                simp [hq.1.not_le, hq.2.not_lt]
              rw [if_neg (by simp [hqb])]
              constructor
              · intro _
                push_neg at hq
                exact ⟨m0, rfl, by omega, by omega⟩
              · intro _
                rfl
  · intro hv
    unfold itemStockIssue
    simp only [hp, hv]
    by_cases hq : product.totalStock.getD 0 ≤ 0 ∨
        product.totalStock.getD 0 < item.quantity
    · have hqb : (product.totalStock.getD 0 ≤ 0 ||
          product.totalStock.getD 0 < item.quantity) = true := by
        rcases hq with h | h <;> simp [h]
      rw [if_pos hqb]
      constructor
      · intro h
        exact absurd h (by simp)
      · intro ⟨hle, hpos⟩
        omega
    · have hqb : (product.totalStock.getD 0 ≤ 0 ||
          product.totalStock.getD 0 < item.quantity) = false := by
        push_neg at hq
        simp [hq.1.not_le, hq.2.not_lt]
      rw [if_neg (by simp [hqb])]
      constructor
      · intro _
        push_neg at hq
        exact ⟨by omega, by omega⟩
      · intro _
        rfl
  · unfold checkStock
    cases hE : (stockIssues items products).isEmpty with
    | true =>
        rw [if_pos (by simp [hE])]
        have hnil : stockIssues items products = [] := by
          simpa [List.isEmpty_iff] using hE
        unfold stockIssues at hnil
        rw [List.filterMap_eq_nil_iff] at hnil
        exact ⟨fun _ => hnil, fun _ => rfl⟩
    | false =>
        rw [if_neg (by simp [hE])]
        constructor
        · intro h
          exact absurd h (by simp)
        · intro hall
          have hnil : stockIssues items products = [] := by
            unfold stockIssues
            rw [List.filterMap_eq_nil_iff]
            exact hall
          rw [hnil] at hE
          simp at hE

theorem stock_validation_amended_witness :
    itemStockIssue
      [{ id := JsId.num 9, title := "P9", published := true, totalStock := some 10,
         discountedPrice := none, originalPrice := JsNum.num 10,
         variantMappings := none }]
      { pid := JsId.num 9, quantity := 2, variant := none } = none :=
  ((stock_validation_amended
      [{ id := JsId.num 9, title := "P9", published := true, totalStock := some 10,
         discountedPrice := none, originalPrice := JsNum.num 10,
         variantMappings := none }]
      []
      { pid := JsId.num 9, quantity := 2, variant := none }
      { id := JsId.num 9, title := "P9", published := true, totalStock := some 10,
        discountedPrice := none, originalPrice := JsNum.num 10,
        variantMappings := none }
      (by decide)).2.1 rfl).mpr (by decide)

/-- Counterexample for C3: `normalizeMappingId` raises on null (and on any
falsy input) — `if (!mapping) throw new Error(...)` — so the ID normalizer
does not "never raise on any input, including null and undefined". -/
theorem normalizeMappingId_null_raises_counterexample :
    normalizeMappingId JsId.jsNull =
      Except.error ("Cannot normalize undefined or null mapping ID") := rfl

/-- C3 (amended): `normalizeMappingId` terminates normally and returns a
string exactly on truthy inputs, and raises exactly on falsy inputs (null,
undefined, the empty string, the number 0); `normalizeVariantId` and
`normalizeProductId` are total string-valued functions of the embedding
(their sources contain no throw site), with unresolvable shapes falling
back to generic string conversion. -/
theorem normalizeMappingId_raises_exactly_on_falsy (v : JsId) :
    (normalizeMappingId v).isOk = jsTruthy v := by
  unfold normalizeMappingId
  cases hv : jsTruthy v with
  | false => simp [hv, Except.isOk, Except.toBool]
  | true =>
      cases v with
      | jsNull => simp [jsTruthy] at hv
      | undef => simp [jsTruthy] at hv
      | str s => simp [hv, Except.isOk, Except.toBool]
      | num n => simp [hv, Except.isOk, Except.toBool]
      | buf bs => simp [hv, Except.isOk, Except.toBool]
      | oid bs => simp [hv, Except.isOk, Except.toBool]
      | objWithId inner => cases inner <;> simp [hv, Except.isOk, Except.toBool]
      | serBuf bs => simp [hv, Except.isOk, Except.toBool]
      | wrapBuf bs => simp [hv, Except.isOk, Except.toBool]

/-- A nonempty byte sequence never hex-encodes to the empty string. -/
theorem hexOfBytes_ne_empty (b : Nat) (rest : List Nat) :
    hexOfBytes (b :: rest) ≠ "" := by
  intro h
  have hd : (hexOfBytes (b :: rest)).data = ("" : String).data := by rw [h]
  unfold hexOfBytes at hd
  simp at hd

/-- The representations of an underlying byte-sequence identifier handled
at the mapping/variant-ID use site: its lowercase-hex string, the Buffer
itself, an ObjectId-like wrapper, the index-keyed serialized-buffer object,
a wrapped raw buffer, and each of those nested under an `id` field. -/
def mappingSiteReps (bs : List Nat) : List JsId :=
  let base := [JsId.str (hexOfBytes bs), JsId.buf bs, JsId.oid bs,
               JsId.serBuf bs, JsId.wrapBuf bs]
  base ++ base.map JsId.objWithId

/-- The representations on which the product-ID use site agrees: the hex
string, the Buffer, the ObjectId-like wrapper, and each of those nested
under an `id` field (the recursion of `normalizeProductId` unwraps any
nesting depth). -/
def productSiteReps (bs : List Nat) : List JsId :=
  let base := [JsId.str (hexOfBytes bs), JsId.buf bs, JsId.oid bs]
  base ++ base.map JsId.objWithId

/-- `Nat.toDigitsCore` never shrinks its accumulator. -/
theorem toDigitsCore_acc_le (b f : Nat) :
    ∀ (n : Nat) (l : List Char), l.length ≤ (Nat.toDigitsCore b f n l).length := by
  induction f with
  | zero =>
      intro n l
      simp [Nat.toDigitsCore]
  | succ f ih =>
      intro n l
      simp only [Nat.toDigitsCore]
      by_cases h : n / b = 0
      · simp [h]
      · rw [if_neg h]
        exact le_trans (by simp) (ih (n / b) (Nat.digitChar (n % b) :: l))

/-- The decimal rendering of a natural number is never the empty string. -/
theorem natRepr_ne_empty (n : Nat) : Nat.repr n ≠ "" := by
  intro h
  have hd := congrArg String.data h
  simp only [Nat.repr, Nat.toDigits, List.asString] at hd
  have hlen : 1 ≤ (Nat.toDigitsCore 10 (n + 1) n []).length := by
    simp only [Nat.toDigitsCore]
    by_cases hq : n / 10 = 0
    · simp [hq]
    · rw [if_neg hq]
      exact le_trans (by simp) (toDigitsCore_acc_le 10 n (n / 10) _)
  rw [hd] at hlen
  simp at hlen

/-- The decimal rendering of an integer is never the empty string. -/
theorem intToString_ne_empty (n : Int) : toString n ≠ "" := by
  cases n with
  | ofNat m => exact natRepr_ne_empty m
  | negSucc m =>
      intro h
      have hd := congrArg String.data h
      have hne := natRepr_ne_empty (m + 1)
      simp only [toString, Int.repr, String.append] at hd
      cases hrep : (Nat.repr (m + 1)).data with
      | nil =>
          apply hne
          have := congrArg List.asString hrep
          simpa [List.asString] using this
      | cons c cs => simp [hrep] at hd

/-- Counterexample for C5: the serialized-buffer shape and the plain hex
string are two representations of the same underlying bytes [1, 2, 3], but
`normalizeProductId` maps them to different strings ("[object Object]"
versus "010203"): the product-ID use site lacks the serialized-buffer
reconstruction branch. -/
theorem productId_serialized_buffer_counterexample :
    normalizeProductId (JsId.serBuf [1, 2, 3]) = ("[object Object]") ∧
    normalizeProductId (JsId.str (hexOfBytes [1, 2, 3])) = hexOfBytes [1, 2, 3] ∧
    normalizeProductId (JsId.serBuf [1, 2, 3]) ≠
      normalizeProductId (JsId.str (hexOfBytes [1, 2, 3])) := by decide

/-- C5 (amended): for every nonempty underlying byte sequence, the
mapping/variant-ID normalizer maps every listed representation — hex
string, Buffer, ObjectId-like wrapper, serialized-buffer object, wrapped
raw buffer, and each of those under a nested `id` field — to the same
lowercase-hex string; the product-ID normalizer agrees on the hex string,
Buffer, ObjectId-like wrapper and their `id`-nested forms, but sends the
two serialized-buffer shapes to the generic "[object Object]" fallback
instead; and both normalizers treat a plain number and its decimal string
identically (the mapping-ID site on nonzero numbers, which are its truthy
inputs). -/
theorem normalization_agreement_amended (bs : List Nat) (hbs : bs ≠ []) :
    (∀ r ∈ mappingSiteReps bs, normalizeMappingId r = Except.ok (hexOfBytes bs)) ∧
    (∀ r ∈ productSiteReps bs, normalizeProductId r = hexOfBytes bs) ∧
    normalizeProductId (JsId.serBuf bs) = ("[object Object]") ∧
    normalizeProductId (JsId.wrapBuf bs) = ("[object Object]") ∧
    (∀ n : Int, normalizeProductId (JsId.num n)
        = normalizeProductId (JsId.str (toString n)) ∧
      (n ≠ 0 → normalizeMappingId (JsId.num n)
          = normalizeMappingId (JsId.str (toString n)))) := by
  obtain ⟨b, rest, rfl⟩ : ∃ b rest, bs = b :: rest := by
    cases bs with
    | nil => exact absurd rfl hbs
    | cons b rest => exact ⟨b, rest, rfl⟩
  have hne : hexOfBytes (b :: rest) ≠ "" := hexOfBytes_ne_empty b rest
  have hstr : jsTruthy (JsId.str (hexOfBytes (b :: rest))) = true := by
    simp [jsTruthy, hne]
  refine ⟨?_, ?_, rfl, rfl, ?_⟩
  · intro r hr
    simp only [mappingSiteReps, List.mem_append, List.mem_map,
      List.mem_cons, List.not_mem_nil, or_false] at hr
    rcases hr with hr | ⟨x, hx, rfl⟩
    · rcases hr with rfl | rfl | rfl | rfl | rfl
      · simp [normalizeMappingId, hstr]
      · rfl
      · rfl
      · simp [normalizeMappingId, jsTruthy]
      · rfl
    · rcases hx with rfl | rfl | rfl | rfl | rfl
      · simp [normalizeMappingId, jsTruthy, normalizeIdValue]
      · rfl
      · rfl
      · simp [normalizeMappingId, jsTruthy, normalizeIdValue]
      · rfl
  · intro r hr
    simp only [productSiteReps, List.mem_append, List.mem_map,
      List.mem_cons, List.not_mem_nil, or_false] at hr
    rcases hr with hr | ⟨x, hx, rfl⟩
    · rcases hr with rfl | rfl | rfl
      · rfl
      · rfl
      · rfl
    · rcases hx with rfl | rfl | rfl
      · rfl
      · rfl
      · rfl
  · intro n
    refine ⟨rfl, fun hn => ?_⟩
    have h1 : jsTruthy (JsId.num n) = true := by simp [jsTruthy, hn]
    have h2 : jsTruthy (JsId.str (toString n)) = true := by
      simp [jsTruthy, intToString_ne_empty n]
    simp [normalizeMappingId, h1, h2]

theorem normalization_agreement_amended_witness :
    normalizeMappingId (JsId.serBuf [1, 2, 3]) = Except.ok (hexOfBytes [1, 2, 3]) :=
  (normalization_agreement_amended [1, 2, 3] (by decide)).1
    (JsId.serBuf [1, 2, 3]) (by decide)

/-!
### Pricing (POST /api/checkout/price endpoint, lines 132-140 and 169-175)
-/

/-- `variant?.price`: undefined when the variant relation is absent or the
variant has no price. -/
def variantPriceField (m : MappingRec) : Option JsNum :=
  m.variant.bind (fun vr => vr.price)

/-- The effective variant price computed at the price endpoint:
`Number(variantMapping.priceOverride || variant?.price || 0)` — JavaScript
`||` short-circuits on truthiness (0, NaN and undefined are falsy), and
`Number` on a number is the identity. -/
def variantPriceAtPriceEndpoint (m : MappingRec) : JsNum :=
  jsOrNum m.priceOverride (jsOrNum (variantPriceField m) (JsNum.num 0))

/-- Modelled from the spec: `isValidPrice` lives in the pricing utility
module (`@/lib/utils/pricing`), which is not part of the provided sources;
the spec defines a price as valid iff it is a finite, non-negative
number. -/
def isValidPrice : JsNum → Bool
  | JsNum.num q => decide (0 ≤ q)
  | _ => false

/-- Modelled from the spec: `getProductPrice` lives in the pricing utility
module (`@/lib/utils/pricing`), which is not part of the provided sources;
the spec states `productPrice(product) = product.discountedPrice if set and
valid, else product.originalPrice`. -/
def getProductPrice (p : ProductRec) : JsNum :=
  match p.discountedPrice with
  | some d => if isValidPrice d then d else p.originalPrice
  | none => p.originalPrice

/-- Follows the words of claim C6, not the source: the effective variant
price is the mapping's priceOverride when it is set and valid, else the
variant's base price when set, else 0.  Compared against
`variantPriceAtPriceEndpoint`. -/
def variantPriceSpec (m : MappingRec) : JsNum :=
  match m.priceOverride with
  | some p =>
      if isValidPrice p then p
      else
        match variantPriceField m with
        | some q => q
        | none => JsNum.num 0
  | none =>
      match variantPriceField m with
      | some q => q
      | none => JsNum.num 0

/-!
### Products collection afterRead hook (part_000 lines 6-38 and 178-214)
-/

/-- An entry of the computed `variantDetails` array as declared in the
Products collection config (part_000 lines 112-135). -/
structure VariantDetail where
  id : String
  variantId : String
  name : String
  price : JsNum
  stock : Int
  sku : String
  isDefault : Bool
  availableForSale : Bool
  category : String
  active : Bool
deriving DecidableEq, Repr

/-- A product document flowing through the Products collection hooks. -/
structure ProductDoc where
  id : JsId
  totalStock : Option Int
  variantMappings : Option (List MappingEntry)
  variantDetails : List VariantDetail
deriving DecidableEq, Repr

/-- Modelled from the spec: `calculateTotalStock` lives in the stock utility
module (`../utils/stockUtils`), which is not part of the provided sources;
the spec defines the recomputation as the sum of `quantity` over the fetched
variant-mapping records, regardless of the active flag. -/
def calculateTotalStock (docs : List MappingRec) : Int :=
  docs.foldl (fun acc m => acc + m.quantity) 0

/-- `calculateTotalStockFromMappings` (part_000 lines 6-38).  The database
`find` over the referenced mapping ids is modelled by its outcome
`findResult` (the fetched documents, or a failure).  An absent or empty
reference list returns 0; a database failure is caught internally and
returns 0. -/
def calculateTotalStockFromMappings (variantMappings : Option (List MappingEntry))
    (findResult : Except Unit (List MappingRec)) : Int :=
  match variantMappings with
  | none => 0
  | some [] => 0
  | some _ =>
      match findResult with
      | Except.ok docs => calculateTotalStock docs
      | Except.error _ => 0

/-- The Products collection `afterRead` hook (part_000 lines 178-213).
`reqPayloadAvailable` models `req?.payload`; `findResult` models the
outcome of the database call made by `calculateTotalStockFromMappings`.
A JavaScript array is truthy even when empty, so the first branch fires
whenever `variantMappings` is present at all; the hook's own try/catch is
dead code because `calculateTotalStockFromMappings` catches internally and
returns 0.  Every branch overwrites `variantDetails` with the empty
array. -/
def afterReadHook (doc : ProductDoc) (reqPayloadAvailable : Bool)
    (findResult : Except Unit (List MappingRec)) : ProductDoc :=
  let storedTotalStock := doc.totalStock.getD 0
  if doc.variantMappings.isSome && reqPayloadAvailable then
    let calculatedStock := calculateTotalStockFromMappings doc.variantMappings findResult
    { doc with totalStock := some calculatedStock, variantDetails := [] }
  else
    if doc.variantMappings.isNone then
      { doc with totalStock := some 0, variantDetails := [] }
    else
      { doc with totalStock := some storedTotalStock, variantDetails := [] }

/-- Counterexample data for C6: a priceOverride that is set and valid (0 is
a finite, non-negative number) next to a variant base price of 10. -/
def mappingC6 : MappingRec :=
  { id := JsId.str "m6"
    variant := some { id := JsId.str "v6", name := "V6", sku := none,
                      price := some (JsNum.num 10) }
    quantity := 1
    priceOverride := some (JsNum.num 0)
    isDefault := false
    isActive := true }

/-- Counterexample for C6: with priceOverride set to the valid price 0, the
endpoint's `priceOverride || variant?.price || 0` yields the variant's base
price 10, not the override — the code selects by JavaScript truthiness, not
by "set and valid". -/
theorem variantPrice_zero_override_counterexample :
    isValidPrice (JsNum.num 0) = true ∧
    variantPriceAtPriceEndpoint mappingC6 = JsNum.num 10 ∧
    variantPriceSpec mappingC6 = JsNum.num 0 ∧
    variantPriceAtPriceEndpoint mappingC6 ≠ variantPriceSpec mappingC6 := by
  refine ⟨by decide, by decide, by decide, by decide⟩

/-- C6 (amended): the effective variant price equals the mapping's
priceOverride when it is set and truthy (nonzero and not NaN — validity is
not consulted at selection time), else the variant's base price when that is
set and truthy, else 0; and the effective product price equals
discountedPrice when set and valid, else originalPrice (the product half per
the spec-modelled `getProductPrice`). -/
theorem price_resolution_amended :
    (∀ (m : MappingRec) (p : JsNum),
      m.priceOverride = some p → JsNum.truthy p = true →
      variantPriceAtPriceEndpoint m = p) ∧
    (∀ (m : MappingRec) (q : JsNum),
      (m.priceOverride = none ∨
        ∃ p, m.priceOverride = some p ∧ JsNum.truthy p = false) →
      variantPriceField m = some q → JsNum.truthy q = true →
      variantPriceAtPriceEndpoint m = q) ∧
    (∀ m : MappingRec,
      (m.priceOverride = none ∨
        ∃ p, m.priceOverride = some p ∧ JsNum.truthy p = false) →
      (variantPriceField m = none ∨
        ∃ q, variantPriceField m = some q ∧ JsNum.truthy q = false) →
      variantPriceAtPriceEndpoint m = JsNum.num 0) ∧
    (∀ (pr : ProductRec) (d : JsNum),
      pr.discountedPrice = some d → isValidPrice d = true →
      getProductPrice pr = d) ∧
    (∀ pr : ProductRec,
      (pr.discountedPrice = none ∨
        ∃ d, pr.discountedPrice = some d ∧ isValidPrice d = false) →
      getProductPrice pr = pr.originalPrice) := by
  refine ⟨?_, ?_, ?_, ?_, ?_⟩
  · intro m p hp ht
    unfold variantPriceAtPriceEndpoint jsOrNum
    rw [hp]
    simp [ht]
  · intro m q hover hq htq
    unfold variantPriceAtPriceEndpoint jsOrNum
    rcases hover with h | ⟨p, hp, hf⟩
    · rw [h, hq]
      simp [htq]
    · rw [hp, hq]
      simp [hf, htq]
  · intro m hover hfield
    unfold variantPriceAtPriceEndpoint jsOrNum
    rcases hover with h | ⟨p, hp, hf⟩ <;> rcases hfield with h2 | ⟨q, hq, hfq⟩
    · rw [h, h2]
    · rw [h, hq]
      simp [hfq]
    · rw [hp, h2]
      simp [hf]
    · rw [hp, hq]
      simp [hf, hfq]
  · intro pr d hd hv
    unfold getProductPrice
    rw [hd]
    simp [hv]
  · intro pr hd
    unfold getProductPrice
    rcases hd with h | ⟨d, hd, hv⟩
    · rw [h]
    · rw [hd]
      simp [hv]

theorem price_resolution_amended_witness :
    variantPriceAtPriceEndpoint
      { id := JsId.str "m6w"
        variant := some { id := JsId.str "v6w", name := "W", sku := none,
                          price := some (JsNum.num 3) }
        quantity := 1
        priceOverride := some (JsNum.num 7)
        isDefault := false
        isActive := true } = JsNum.num 7 :=
  price_resolution_amended.1
    { id := JsId.str "m6w"
      variant := some { id := JsId.str "v6w", name := "W", sku := none,
                        price := some (JsNum.num 3) }
      quantity := 1
      priceOverride := some (JsNum.num 7)
      isDefault := false
      isActive := true }
    (JsNum.num 7) rfl (by decide)

/-- Failing input for C7: a product whose stored totalStock is 7 and whose
mapping references are present, read while the database lookup fails. -/
def docC7 : ProductDoc :=
  { id := JsId.num 7
    totalStock := some 7
    variantMappings := some [MappingEntry.ref 1]
    variantDetails := [] }

/-- C7 is a code bug: on a database failure the hook sets totalStock to 0
instead of preserving the stored value 7.  `calculateTotalStockFromMappings`
catches the failure internally and returns 0, so the hook's own
"preserve stored value if calculation fails" catch branch (and comment) is
unreachable, and the hook takes 0 for an accurate recomputation. -/
theorem afterRead_zero_on_failure :
    docC7.totalStock = some 7 ∧
    (afterReadHook docC7 true (Except.error ())).totalStock = some 0 := by decide

/-- C10: the afterRead hook overwrites variantDetails with the empty array
on every code path — for every document, availability of `req.payload`, and
database outcome — even though the field is declared as computed from
active variant mappings. -/
theorem afterRead_variantDetails_always_empty (doc : ProductDoc)
    (reqPayloadAvailable : Bool) (findResult : Except Unit (List MappingRec)) :
    (afterReadHook doc reqPayloadAvailable findResult).variantDetails = [] := by
  unfold afterReadHook
  by_cases h1 : doc.variantMappings.isSome && reqPayloadAvailable
  · simp [h1]
  · simp only [h1]
    by_cases h2 : doc.variantMappings.isNone
    · simp [h2]
    · simp [h1, h2]
